import Mathlib

/-!
Shallow embedding of `src/powerups.py`: a catalog of power-up definitions and
a `PowerUpManager` state machine driven by externally supplied timestamps.

Modelling conventions:
* Timestamps and durations are rationals (`ℚ`); the Python code uses floats,
  but every operation here is order/addition only, so exact arithmetic is the
  faithful abstraction.
* `random.uniform(25, 35)` is modelled by an explicit draw parameter `r : ℚ`
  with hypotheses `25 ≤ r`, `r ≤ 35` where a claim quantifies over draws.
* `random.choices(self.powerups, weights=..., k=1)[0]` is modelled by an
  explicit chosen index `k : ℕ` with `k < powerups.length`; the weight list
  itself is embedded as `spawn_weights`.
* `rarity = round(math.log(rank + 1), 2)` is embedded over `ℝ` with exact
  `Real.log` and rounding to two decimals (`roundTo2`).
-/

namespace Vibing

/-- Definition of a power-up (the frozen dataclass `PowerUp`,
src/powerups.py lines 14-24). -/
structure PowerUp where
  name : String
  rank : ℕ
  rarity : ℝ
  tier : String
  color : String
  duration : ℕ
  effect : String

/-- Raw power-up definitions, pairs of (name, effect)
(`_POWER_UP_DEFS`, src/powerups.py lines 28-49). -/
def POWER_UP_DEFS : List (String × String) :=
  [("Mega Multiplier", "Multiply all points by five."),
   ("Golden Banana", "Each hit grants a massive score bonus."),
   ("Combo Frenzy", "Combo meter builds twice as fast."),
   ("Fever Time", "Triple points for every beat."),
   ("Perfect Shield", "Misses do not break your combo."),
   ("Tempo Boost", "Slightly faster tempo for more scoring chances."),
   ("Time Warp", "Slows beat scroll speed."),
   ("Streak Saver", "Automatically saves the next missed beat."),
   ("Banana Magnet", "Nearby bananas fly toward you."),
   ("Score Burst", "Periodic bursts of bonus points."),
   ("Groove Guard", "Blocks the next obstacle."),
   ("Beat Freeze", "Freezes beats briefly on activation."),
   ("Drum Echo", "Each hit echoes for an extra score tick."),
   ("Banana Bloom", "Spawns extra bananas to catch."),
   ("Rhythm Rush", "More beats spawn for a short time."),
   ("Monkey March", "Auto-hits basic beats."),
   ("Tap Booster", "Temporarily enlarges the hit box."),
   ("Beat Bonus", "Adds a small bonus to every beat."),
   ("Banana Trick", "Random small bonus each hit."),
   ("Happy Hour", "Slight constant score buff.")]

/-- Return tier name, color, and duration for a rank
(`_tier_for_rank`, src/powerups.py lines 52-63). -/
def tier_for_rank (rank : ℕ) : String × String × ℕ :=
  if rank ≤ 3 then ("Legendary", "#FF8000", 45)
  else if rank ≤ 7 then ("Epic", "#A335EE", 35)
  else if rank ≤ 12 then ("Rare", "#0070FF", 30)
  else if rank ≤ 16 then ("Uncommon", "#1EFF00", 25)
  else ("Common", "#BEBEBE", 20)

/-- Rounding to two decimal places, the embedding of Python `round(x, 2)`
over exact reals. -/
noncomputable def roundTo2 (x : ℝ) : ℝ := (round (x * 100) : ℤ) / 100

/-- One catalog entry as built by the loop body of the catalog construction
(src/powerups.py lines 68-81): rank from the 1-based position, rarity from the
logarithmic scale, tier data from `tier_for_rank`. -/
noncomputable def mkPowerUp (rank : ℕ) (ne : String × String) : PowerUp :=
  { name := ne.1
    rank := rank
    rarity := roundTo2 (Real.log (rank + 1))
    tier := (tier_for_rank rank).1
    color := (tier_for_rank rank).2.1
    duration := (tier_for_rank rank).2.2
    effect := ne.2 }

/-- The ranked power-up list (`POWER_UPS`, src/powerups.py lines 67-81):
`enumerate(_POWER_UP_DEFS, start=1)` builds entries in list order. -/
noncomputable def POWER_UPS : List PowerUp :=
  POWER_UP_DEFS.enum.map (fun p => mkPowerUp (p.1 + 1) p.2)

/-- Mutable state of `PowerUpManager` (src/powerups.py lines 84-95). -/
structure ManagerState where
  powerups : List PowerUp
  spawned_powerup : Option PowerUp
  active_powerup : Option PowerUp
  active_ends_at : ℚ
  next_spawn_time : ℚ

/-- `schedule_next_spawn` (src/powerups.py lines 106-107): sets
`next_spawn_time = now + r` where `r` is the draw of `random.uniform(25, 35)`. -/
def schedule_next_spawn (s : ManagerState) (now r : ℚ) : ManagerState :=
  { s with next_spawn_time := now + r }

/-- `PowerUpManager.__init__` (src/powerups.py lines 89-95).  The argument
models `powerups: Optional[List[PowerUp]] = None`; `powerups or POWER_UPS`
falls back to the master list when the argument is `None` or an empty list. -/
noncomputable def init (catalog : Option (List PowerUp)) (now r : ℚ) : ManagerState :=
  schedule_next_spawn
    { powerups :=
        match catalog with
        | none => POWER_UPS
        | some l => if l.isEmpty then POWER_UPS else l
      spawned_powerup := none
      active_powerup := none
      active_ends_at := 0
      next_spawn_time := 0 } now r

/-- `spawn` (src/powerups.py lines 109-111): stores the entry chosen by the
weighted random draw, modelled by its index `k` into the catalog. -/
def spawn (s : ManagerState) (k : ℕ) : ManagerState :=
  match s.powerups.get? k with
  | some p => { s with spawned_powerup := some p }
  | none => s

/-- The weight list built by `spawn` (src/powerups.py line 110):
`weights = [math.log(p.rank + 1) for p in self.powerups]`. -/
noncomputable def spawn_weights (s : ManagerState) : List ℝ :=
  s.powerups.map (fun p => Real.log (p.rank + 1))

/-- First check of `update` (src/powerups.py lines 99-101): if an active
power-up has expired, clear it and re-arm the spawn cycle. -/
def expire_check (s : ManagerState) (now r : ℚ) : ManagerState :=
  if s.active_powerup.isSome ∧ s.active_ends_at ≤ now then
    schedule_next_spawn { s with active_powerup := none } now r
  else s

/-- Second check of `update` (src/powerups.py lines 103-104): if nothing is
spawned or active and the spawn time has been reached, spawn. -/
def spawn_check (s : ManagerState) (now : ℚ) (k : ℕ) : ManagerState :=
  if s.spawned_powerup.isNone ∧ s.active_powerup.isNone ∧ s.next_spawn_time ≤ now then
    spawn s k
  else s

/-- `update` (src/powerups.py lines 97-104): the two checks run sequentially,
expiry first, on every call. -/
def update (s : ManagerState) (now r : ℚ) (k : ℕ) : ManagerState :=
  spawn_check (expire_check s now r) now k

/-- `pick_up` (src/powerups.py lines 114-121): activate and return the
currently spawned power-up if present and nothing is active. -/
def pick_up (s : ManagerState) (now : ℚ) : Option PowerUp × ManagerState :=
  match s.spawned_powerup, s.active_powerup with
  | some p, none =>
      (some p, { s with active_powerup := some p
                        active_ends_at := now + (p.duration : ℚ)
                        spawned_powerup := none })
  | _, _ => (none, s)

/-- The spawned/active exclusivity property of a manager state. -/
def SpawnActiveExcl (s : ManagerState) : Prop :=
  s.spawned_powerup = none ∨ s.active_powerup = none

/-- States reachable from construction by `update` and `pick_up` calls with
draws in the ranges the random source actually produces. -/
inductive Reachable : ManagerState → Prop where
  | construct (catalog : Option (List PowerUp)) (now r : ℚ) :
      25 ≤ r → r ≤ 35 → Reachable (init catalog now r)
  | step (s : ManagerState) (now r : ℚ) (k : ℕ) :
      Reachable s → 25 ≤ r → r ≤ 35 → k < s.powerups.length →
      Reachable (update s now r k)
  | pick (s : ManagerState) (now : ℚ) :
      Reachable s → Reachable (pick_up s now).2

lemma POWER_UPS_length : POWER_UPS.length = 20 := by decide

lemma POWER_UPS_length_pos : 0 < POWER_UPS.length := by decide

lemma expire_check_pos (s : ManagerState) (now r : ℚ)
    (h : s.active_powerup.isSome ∧ s.active_ends_at ≤ now) :
    expire_check s now r =
      { s with active_powerup := none, next_spawn_time := now + r } := by
  unfold expire_check schedule_next_spawn
  rw [if_pos h]

lemma expire_check_neg (s : ManagerState) (now r : ℚ)
    (h : ¬(s.active_powerup.isSome ∧ s.active_ends_at ≤ now)) :
    expire_check s now r = s := by
  unfold expire_check
  rw [if_neg h]

lemma spawn_check_pos (s : ManagerState) (now : ℚ) (k : ℕ)
    (h : s.spawned_powerup.isNone ∧ s.active_powerup.isNone ∧ s.next_spawn_time ≤ now) :
    spawn_check s now k = spawn s k := by
  unfold spawn_check
  rw [if_pos h]

lemma spawn_check_neg (s : ManagerState) (now : ℚ) (k : ℕ)
    (h : ¬(s.spawned_powerup.isNone ∧ s.active_powerup.isNone ∧ s.next_spawn_time ≤ now)) :
    spawn_check s now k = s := by
  unfold spawn_check
  rw [if_neg h]

lemma spawn_get (s : ManagerState) (k : ℕ) (hk : k < s.powerups.length) :
    spawn s k = { s with spawned_powerup := some (s.powerups.get ⟨k, hk⟩) } := by
  unfold spawn
  rw [List.get?_eq_get hk]

lemma pick_up_pos (s : ManagerState) (now : ℚ) (p : PowerUp)
    (hs : s.spawned_powerup = some p) (ha : s.active_powerup = none) :
    pick_up s now =
      (some p, { s with active_powerup := some p
                        active_ends_at := now + (p.duration : ℚ)
                        spawned_powerup := none }) := by
  unfold pick_up
  rw [hs, ha]

lemma pick_up_neg (s : ManagerState) (now : ℚ)
    (h : s.spawned_powerup = none ∨ s.active_powerup ≠ none) :
    pick_up s now = (none, s) := by
  rcases hs : s.spawned_powerup with _ | p
  · unfold pick_up
    rw [hs]
  · rcases ha : s.active_powerup with _ | q
    · rcases h with h | h
      · rw [hs] at h
        exact absurd h (by simp)
      · exact absurd ha h
    · unfold pick_up
      rw [hs, ha]

lemma update_expired (s : ManagerState) (now r : ℚ) (k : ℕ)
    (h1 : s.active_powerup.isSome ∧ s.active_ends_at ≤ now) (hr1 : 25 ≤ r) :
    update s now r k =
      { s with active_powerup := none, next_spawn_time := now + r } := by
  unfold update
  rw [expire_check_pos s now r h1]
  apply spawn_check_neg
  rintro ⟨-, -, hle⟩
  have hle2 : now + r ≤ now := hle
  linarith

lemma update_spawns (s : ManagerState) (now r : ℚ) (k : ℕ)
    (h1 : ¬(s.active_powerup.isSome ∧ s.active_ends_at ≤ now))
    (h2 : s.spawned_powerup.isNone ∧ s.active_powerup.isNone ∧ s.next_spawn_time ≤ now) :
    update s now r k = spawn s k := by
  unfold update
  rw [expire_check_neg s now r h1]
  exact spawn_check_pos s now k h2

lemma update_inert (s : ManagerState) (now r : ℚ) (k : ℕ)
    (h1 : ¬(s.active_powerup.isSome ∧ s.active_ends_at ≤ now))
    (h2 : ¬(s.spawned_powerup.isNone ∧ s.active_powerup.isNone ∧ s.next_spawn_time ≤ now)) :
    update s now r k = s := by
  unfold update
  rw [expire_check_neg s now r h1]
  exact spawn_check_neg s now k h2

/-- Claim C1: `update(now)` performs exactly two checks in order.  If an
active power-up has expired, it is cleared and the spawn cycle re-armed to a
time in `[now + 25, now + 35]` (all other fields untouched); otherwise, if
nothing is spawned or active and the spawn time has been reached, `spawn()`
runs; in all other cases the state is unchanged. -/
theorem update_two_checks (s : ManagerState) (now r : ℚ) (k : ℕ)
    (hr1 : 25 ≤ r) (hr2 : r ≤ 35) :
    (s.active_powerup.isSome ∧ s.active_ends_at ≤ now →
      (update s now r k).active_powerup = none ∧
      (update s now r k).next_spawn_time = now + r ∧
      now + 25 ≤ (update s now r k).next_spawn_time ∧
      (update s now r k).next_spawn_time ≤ now + 35 ∧
      (update s now r k).spawned_powerup = s.spawned_powerup ∧
      (update s now r k).active_ends_at = s.active_ends_at ∧
      (update s now r k).powerups = s.powerups) ∧
    (¬(s.active_powerup.isSome ∧ s.active_ends_at ≤ now) →
      s.spawned_powerup.isNone ∧ s.active_powerup.isNone ∧ s.next_spawn_time ≤ now →
      update s now r k = spawn s k) ∧
    (¬(s.active_powerup.isSome ∧ s.active_ends_at ≤ now) →
      ¬(s.spawned_powerup.isNone ∧ s.active_powerup.isNone ∧ s.next_spawn_time ≤ now) →
      update s now r k = s) := by
  refine ⟨fun h1 => ?_, fun h1 h2 => ?_, fun h1 h2 => ?_⟩
  · have e1 : update s now r k =
        { s with active_powerup := none, next_spawn_time := now + r } := by
      unfold update
      rw [expire_check_pos s now r h1]
      apply spawn_check_neg
      rintro ⟨-, -, hle⟩
      have hle2 : now + r ≤ now := hle
      linarith
    rw [e1]
    refine ⟨rfl, rfl, ?_, ?_, rfl, rfl, rfl⟩
    · show now + 25 ≤ now + r
      linarith
    · show now + r ≤ now + 35
      linarith
  · unfold update
    rw [expire_check_neg s now r h1]
    exact spawn_check_pos s now k h2
  · unfold update
    rw [expire_check_neg s now r h1]
    exact spawn_check_neg s now k h2

/-- The rarest catalog entry, used as a concrete sample power-up. -/
noncomputable def p1 : PowerUp := POWER_UPS.get ⟨0, POWER_UPS_length_pos⟩

/-- A concrete state with an active power-up that expires at time 100. -/
noncomputable def sample_active : ManagerState :=
  { powerups := POWER_UPS
    spawned_powerup := none
    active_powerup := some p1
    active_ends_at := 100
    next_spawn_time := 50 }

/-- Witness for C1 at a concrete expired-active state. -/
theorem update_two_checks_witness :
    (update sample_active 100 30 0).active_powerup = none ∧
    (update sample_active 100 30 0).next_spawn_time = 130 := by
  have h := (update_two_checks sample_active 100 30 0 (by norm_num) (by norm_num)).1
    ⟨rfl, le_refl (100 : ℚ)⟩
  refine ⟨h.1, ?_⟩
  rw [h.2.1]
  norm_num

/-- Claim C2: `pick_up(now)` activates the spawned power-up exactly when one
is spawned and none is active — moving it into `active_powerup`, setting
`active_ends_at = now + duration`, clearing `spawned_powerup`, and returning
it — and in every other state returns `none` and leaves the state unchanged. -/
theorem pick_up_spec (s : ManagerState) (now : ℚ) :
    (∀ p, s.spawned_powerup = some p → s.active_powerup = none →
      pick_up s now =
        (some p, { s with active_powerup := some p
                          active_ends_at := now + (p.duration : ℚ)
                          spawned_powerup := none })) ∧
    (s.spawned_powerup = none ∨ s.active_powerup ≠ none →
      pick_up s now = (none, s)) :=
  ⟨fun p hs ha => pick_up_pos s now p hs ha, fun h => pick_up_neg s now h⟩

/-- A concrete state offering a spawned power-up with nothing active. -/
noncomputable def sample_spawned : ManagerState :=
  { powerups := POWER_UPS
    spawned_powerup := some p1
    active_powerup := none
    active_ends_at := 0
    next_spawn_time := 50 }

/-- Witness for C2 at a concrete spawned-and-idle state. -/
theorem pick_up_spec_witness :
    pick_up sample_spawned 10 =
      (some p1, { sample_spawned with active_powerup := some p1
                                      active_ends_at := 10 + (p1.duration : ℚ)
                                      spawned_powerup := none }) :=
  (pick_up_spec sample_spawned 10).1 p1 rfl rfl

/-- Claim C4: a freshly constructed manager has nothing spawned, nothing
active, `active_ends_at = 0`, and `next_spawn_time ∈ [now + 25, now + 35]`
for every draw of the uniform random source. -/
theorem init_spec (catalog : Option (List PowerUp)) (now r : ℚ)
    (hr1 : 25 ≤ r) (hr2 : r ≤ 35) :
    (init catalog now r).spawned_powerup = none ∧
    (init catalog now r).active_powerup = none ∧
    (init catalog now r).active_ends_at = 0 ∧
    now + 25 ≤ (init catalog now r).next_spawn_time ∧
    (init catalog now r).next_spawn_time ≤ now + 35 := by
  have e : (init catalog now r).next_spawn_time = now + r := rfl
  refine ⟨rfl, rfl, rfl, ?_, ?_⟩ <;> rw [e] <;> linarith

/-- Witness for C4 at construction time 0 with draw 30. -/
theorem init_spec_witness :
    (init none 0 30).active_ends_at = 0 ∧ 0 + 25 ≤ (init none 0 30).next_spawn_time := by
  have h := init_spec none 0 30 (by norm_num) (by norm_num)
  exact ⟨h.2.2.1, h.2.2.2.1⟩

/-- Claim C10: constructing a manager with an explicitly supplied empty
catalog falls back to the default master list (the `or` in the constructor
treats the empty list as falsy), so a subsequent spawn draws from the full
default catalog. -/
theorem empty_catalog_fallback :
    (init (some []) 0 30).powerups = POWER_UPS ∧
    (spawn (init (some []) 0 30) 0).spawned_powerup =
      some (POWER_UPS.get ⟨0, POWER_UPS_length_pos⟩) := by
  exact ⟨rfl, rfl⟩

/-- Counterexample to claim C3: there is no state with an active power-up,
no timestamp and no valid random draw for which a single `update` call both
observes the expiry and gets `spawned_powerup` set in that same call — after
the expiry branch re-arms, the spawn threshold lies strictly in the future,
so the spawn check of the same call always fails. -/
theorem update_no_same_tick_spawn :
    ¬ ∃ (s : ManagerState) (now r : ℚ) (k : ℕ),
        s.active_powerup.isSome ∧ s.active_ends_at ≤ now ∧
        25 ≤ r ∧ r ≤ 35 ∧ s.spawned_powerup = none ∧
        (update s now r k).spawned_powerup ≠ none := by
  rintro ⟨s, now, r, k, ha, he, hr1, hr2, hs, hne⟩
  rw [update_expired s now r k ⟨ha, he⟩ hr1] at hne
  exact hne hs

/-- Amended claim C3: when `update` observes an active power-up's expiry, the
re-arm does run before the spawn check, but it sets `next_spawn_time = now + r`
with `r ∈ [25, 35]`, strictly later than `now`, so the spawn check of the same
call always fails and `spawned_powerup` is unchanged. -/
theorem update_expiry_blocks_same_tick_spawn (s : ManagerState) (now r : ℚ) (k : ℕ)
    (ha : s.active_powerup.isSome) (he : s.active_ends_at ≤ now)
    (hr1 : 25 ≤ r) (hr2 : r ≤ 35) :
    (update s now r k).active_powerup = none ∧
    (update s now r k).next_spawn_time = now + r ∧
    now < (update s now r k).next_spawn_time ∧
    (update s now r k).spawned_powerup = s.spawned_powerup := by
  have e1 : update s now r k =
      { s with active_powerup := none, next_spawn_time := now + r } := by
    unfold update
    rw [expire_check_pos s now r ⟨ha, he⟩]
    apply spawn_check_neg
    rintro ⟨-, -, hle⟩
    have hle2 : now + r ≤ now := hle
    linarith
  rw [e1]
  refine ⟨rfl, rfl, ?_, rfl⟩
  show now < now + r
  linarith

/-- Witness for the amended C3 at a concrete expired-active state. -/
theorem update_expiry_blocks_same_tick_spawn_witness :
    (update sample_active 100 30 0).active_powerup = none ∧
    (100 : ℚ) < (update sample_active 100 30 0).next_spawn_time := by
  have h := update_expiry_blocks_same_tick_spawn sample_active 100 30 0 rfl
    (le_refl (100 : ℚ)) (by norm_num) (by norm_num)
  exact ⟨h.1, h.2.2.1⟩

/-- Claim C5: the catalog has exactly 20 entries, their ranks are exactly
1..20 in list order, and each entry's rarity is `round(ln(rank + 1), 2)`. -/
theorem catalog_spec :
    POWER_UPS.length = 20 ∧
    POWER_UPS.map PowerUp.rank = List.range' 1 20 ∧
    ∀ p ∈ POWER_UPS, p.rarity = roundTo2 (Real.log (p.rank + 1)) := by
  refine ⟨POWER_UPS_length, by decide, ?_⟩
  intro p hp
  simp only [POWER_UPS] at hp
  obtain ⟨a, -, rfl⟩ := List.mem_map.mp hp
  rfl

/-- Witness for C5 at the first catalog entry. -/
theorem catalog_spec_witness :
    (POWER_UPS.get ⟨0, POWER_UPS_length_pos⟩).rarity =
      roundTo2 (Real.log ((POWER_UPS.get ⟨0, POWER_UPS_length_pos⟩).rank + 1)) :=
  catalog_spec.2.2 _ (List.get_mem POWER_UPS 0 POWER_UPS_length_pos)

/-- Claim C6: every catalog entry's tier, color and duration are the pure
function of its rank given by the fixed threshold table. -/
theorem tier_table_spec :
    (∀ p ∈ POWER_UPS, (p.tier, p.color, p.duration) = tier_for_rank p.rank) ∧
    ∀ rank : ℕ,
      (rank ≤ 3 → tier_for_rank rank = ("Legendary", "#FF8000", 45)) ∧
      (3 < rank → rank ≤ 7 → tier_for_rank rank = ("Epic", "#A335EE", 35)) ∧
      (7 < rank → rank ≤ 12 → tier_for_rank rank = ("Rare", "#0070FF", 30)) ∧
      (12 < rank → rank ≤ 16 → tier_for_rank rank = ("Uncommon", "#1EFF00", 25)) ∧
      (16 < rank → tier_for_rank rank = ("Common", "#BEBEBE", 20)) := by
  constructor
  · intro p hp
    simp only [POWER_UPS] at hp
    obtain ⟨a, -, rfl⟩ := List.mem_map.mp hp
    rfl
  · intro rank
    refine ⟨fun h => ?_, fun h1 h2 => ?_, fun h1 h2 => ?_, fun h1 h2 => ?_,
      fun h => ?_⟩ <;>
      · unfold tier_for_rank
        split_ifs <;> first | rfl | omega

/-- Witness for C6 at the first catalog entry and rank 1. -/
theorem tier_table_spec_witness :
    ((POWER_UPS.get ⟨0, POWER_UPS_length_pos⟩).tier,
     (POWER_UPS.get ⟨0, POWER_UPS_length_pos⟩).color,
     (POWER_UPS.get ⟨0, POWER_UPS_length_pos⟩).duration) =
      tier_for_rank (POWER_UPS.get ⟨0, POWER_UPS_length_pos⟩).rank ∧
    tier_for_rank 1 = ("Legendary", "#FF8000", 45) :=
  ⟨tier_table_spec.1 _ (List.get_mem POWER_UPS 0 POWER_UPS_length_pos),
   (tier_table_spec.2 1).1 (by norm_num)⟩

lemma spawn_active (s : ManagerState) (k : ℕ) :
    (spawn s k).active_powerup = s.active_powerup := by
  unfold spawn
  cases s.powerups.get? k <;> rfl

lemma excl_expire_check (s : ManagerState) (now r : ℚ)
    (h : SpawnActiveExcl s) : SpawnActiveExcl (expire_check s now r) := by
  by_cases h1 : s.active_powerup.isSome ∧ s.active_ends_at ≤ now
  · rw [expire_check_pos s now r h1]
    exact Or.inr rfl
  · rw [expire_check_neg s now r h1]
    exact h

lemma excl_spawn_check (s : ManagerState) (now : ℚ) (k : ℕ)
    (h : SpawnActiveExcl s) : SpawnActiveExcl (spawn_check s now k) := by
  by_cases h2 : s.spawned_powerup.isNone ∧ s.active_powerup.isNone ∧ s.next_spawn_time ≤ now
  · rw [spawn_check_pos s now k h2]
    refine Or.inr ?_
    rw [spawn_active s k]
    exact Option.isNone_iff_eq_none.mp h2.2.1
  · rw [spawn_check_neg s now k h2]
    exact h

lemma excl_pick_up (s : ManagerState) (now : ℚ)
    (h : SpawnActiveExcl s) : SpawnActiveExcl (pick_up s now).2 := by
  rcases hs : s.spawned_powerup with _ | p
  · rw [pick_up_neg s now (Or.inl hs)]
    exact h
  · rcases ha : s.active_powerup with _ | q
    · rw [pick_up_pos s now p hs ha]
      exact Or.inl rfl
    · rw [pick_up_neg s now (Or.inr (by rw [ha]; simp))]
      exact h

/-- Claim C7: in every state reachable from construction by `update` and
`pick_up` calls, the spawned and the active power-up are never both set. -/
theorem reachable_excl (s : ManagerState) (h : Reachable s) : SpawnActiveExcl s := by
  induction h with
  | construct catalog now r hr1 hr2 => exact Or.inl rfl
  | step t now r k ht hr1 hr2 hk ih =>
      exact excl_spawn_check (expire_check t now r) now k (excl_expire_check t now r ih)
  | pick t now ht ih => exact excl_pick_up t now ih

/-- Witness for C7 at a freshly constructed manager. -/
theorem reachable_excl_witness : SpawnActiveExcl (init none 0 30) :=
  reachable_excl (init none 0 30)
    (Reachable.construct none 0 30 (by norm_num) (by norm_num))

/-- Claim C8: `update` is idempotent at a fixed timestamp — a second call
with the same `now` changes nothing, whatever draws either call makes. -/
theorem update_idempotent (s : ManagerState) (now r r2 : ℚ) (k k2 : ℕ)
    (hr1 : 25 ≤ r) (hk : k < s.powerups.length) :
    update (update s now r k) now r2 k2 = update s now r k := by
  by_cases h1 : s.active_powerup.isSome ∧ s.active_ends_at ≤ now
  · rw [update_expired s now r k h1 hr1]
    apply update_inert
    · rintro ⟨hsome, -⟩
      have hsome2 : (none : Option PowerUp).isSome = true := hsome
      simp at hsome2
    · rintro ⟨-, -, hle⟩
      have hle2 : now + r ≤ now := hle
      linarith
  · by_cases h2 : s.spawned_powerup.isNone ∧ s.active_powerup.isNone ∧
        s.next_spawn_time ≤ now
    · have e1 : update s now r k =
          { s with spawned_powerup := some (s.powerups.get ⟨k, hk⟩) } := by
        rw [update_spawns s now r k h1 h2, spawn_get s k hk]
      rw [e1]
      apply update_inert
      · intro hcon
        exact h1 ⟨hcon.1, hcon.2⟩
      · rintro ⟨hnone, -, -⟩
        have hnone2 : (some (s.powerups.get ⟨k, hk⟩)).isNone = true := hnone
        simp at hnone2
    · rw [update_inert s now r k h1 h2]
      exact update_inert s now r2 k2 h1 h2

/-- Witness for C8: a second `update` at time 40 on a fresh manager changes
nothing, under fresh draws. -/
theorem update_idempotent_witness :
    update (update (init none 0 30) 40 30 0) 40 31 1 = update (init none 0 30) 40 30 0 :=
  update_idempotent (init none 0 30) 40 30 31 0 1 (by norm_num) POWER_UPS_length_pos

/-- Claim C9: `spawn` stores the entry the weighted draw chose from the
manager's catalog in `spawned_powerup` and modifies no other field; the
weight list it draws from assigns each item `p` the weight `ln(p.rank + 1)`. -/
theorem spawn_spec (s : ManagerState) (k : ℕ) (hk : k < s.powerups.length) :
    (spawn s k).spawned_powerup = some (s.powerups.get ⟨k, hk⟩) ∧
    (spawn s k).active_powerup = s.active_powerup ∧
    (spawn s k).active_ends_at = s.active_ends_at ∧
    (spawn s k).next_spawn_time = s.next_spawn_time ∧
    (spawn s k).powerups = s.powerups ∧
    spawn_weights s = s.powerups.map (fun p => Real.log (p.rank + 1)) := by
  rw [spawn_get s k hk]
  exact ⟨rfl, rfl, rfl, rfl, rfl, rfl⟩

/-- Witness for C9: spawning at index 0 on a fresh manager with the default
catalog. -/
theorem spawn_spec_witness :
    (spawn (init none 0 30) 0).spawned_powerup =
      some ((init none 0 30).powerups.get ⟨0, POWER_UPS_length_pos⟩) :=
  (spawn_spec (init none 0 30) 0 POWER_UPS_length_pos).1

end Vibing
